import Mathlib

/-!
Shallow embedding of `src/Arter_i_avverkning.py`.

The program ingests species-observation rows, logging polygons, spatially
correlates them and reports statistics.  Geometry predicates (shapely
`within` / `intersects` on buffered discs) and field coercions
(`pd.to_numeric` / `pd.to_datetime` with `errors='coerce'`) are external
library calls; they are embedded as explicit function parameters
(`Nat → Nat → Bool` predicates over row indices, `Int → Option Int`
parsers over raw cell values).  DataFrame rows are lists of records,
row identity is the positional index (pandas index), and fallible
operations return `Except String`.
-/

/-- Match status written into the `Status_Analys` column by
`run_spatial_analysis`: `Inuti` for the `within` join, `Nara` for the
buffered `intersects` join. -/
inductive Status where
  | Inuti : Status
  | Nara : Status
deriving DecidableEq, Repr

/-- One row of the joined match table: the left (observation) index, the
right (`index_right`, polygon) index, and the status tag. -/
structure MatchRec where
  obsIdx : Nat
  polyIdx : Nat
  status : Status
deriving DecidableEq, Repr

/-- Concatenation of the images of `f`, used to embed row-producing loops. -/
def concatMap (f : α → List β) : List α → List β
  | [] => []
  | a :: as => f a ++ concatMap f as

/-- Embedding of `gpd.sjoin(left, right, how="inner", predicate=...)`:
every (left row, right row) pair satisfying the predicate, in left-major
order, identified by indices. -/
def sjoin (obs : List Nat) (polys : List Nat) (pred : Nat → Nat → Bool) :
    List (Nat × Nat) :=
  concatMap (fun o => (polys.filter (fun p => pred o p)).map (fun p => (o, p))) obs

/-- Tag a joined pair with a status, as the assignments
`in_zone['Status_Analys'] = 'Inuti'` / `all_near['Status_Analys'] = 'Nära (50m)'` do. -/
def tagg (s : Status) (pr : Nat × Nat) : MatchRec :=
  ⟨pr.1, pr.2, s⟩

/-- Line 189: `in_zone = gpd.sjoin(gdf_obs, relevant_logging, how="inner",
predicate="within")` tagged `Inuti`. -/
def in_zone (obs polys : List Nat) (within : Nat → Nat → Bool) : List MatchRec :=
  (sjoin obs polys within).map (tagg Status.Inuti)

/-- Line 193: `all_near = gpd.sjoin(gdf_obs_buffered, relevant_logging,
how="inner", predicate="intersects")` tagged `Nära (50m)`. -/
def all_near (obs polys : List Nat) (buffered_intersects : Nat → Nat → Bool) :
    List MatchRec :=
  (sjoin obs polys buffered_intersects).map (tagg Status.Nara)

/-- Embedding of `combined[~combined.index.duplicated(keep='first')]`:
keep a row only if its (observation) index has not been seen before;
`seen` accumulates the indices already kept. -/
def dedupByObsAux : List Nat → List MatchRec → List MatchRec
  | _, [] => []
  | seen, r :: rs =>
      if r.obsIdx ∈ seen then dedupByObsAux seen rs
      else r :: dedupByObsAux (r.obsIdx :: seen) rs

/-- First-seen-wins deduplication on the observation index. -/
def dedupByObs (l : List MatchRec) : List MatchRec :=
  dedupByObsAux [] l

/-- Lines 196-198: `combined = pd.concat([in_zone, all_near])` followed by
index-duplicate removal keeping the first occurrence. -/
def merge_matches (obs polys : List Nat) (w b : Nat → Nat → Bool) : List MatchRec :=
  dedupByObs (in_zone obs polys w ++ all_near obs polys b)

/-- Per-layer body of the loop in `run_spatial_analysis` (lines 181-204):
filter the layer's polygons to those intersecting the study-area mask
(`relevant_logging`), compute and merge the two joins, and return the
merged matches together with `total_relevant_count`. -/
def run_spatial_analysis_layer (obs polys : List Nat) (touchesStudy : Nat → Bool)
    (w b : Nat → Nat → Bool) : List MatchRec × Nat :=
  let relevant := polys.filter touchesStudy
  (merge_matches obs relevant w b, relevant.length)

/-- One observation row after the `pd.to_numeric(..., errors='coerce')`
coercions of `load_observations`: `Ost`, `Nord`, `Noggrannhet`, `Antal`
hold `none` where the raw cell was missing or unparseable; raw text cells
(`Artnamn`, `Startdatum`) are kept as opaque integer codes. -/
structure ObsRow where
  ost : Option Int
  nord : Option Int
  noggrannhet : Option Int
  antal : Option Int
  artnamn : Int
  startdatum : Int
deriving DecidableEq, Repr

/-- Line 79 of `load_observations`: `df = df[df['Noggrannhet'] <= 50]`,
applied only when the column is present (line 75).  In pandas a missing
value (`NaN`) compares `False` against 50, so a row passes the mask only
when `Noggrannhet` is present and at most 50. -/
def noggrannhetFilter (hasCol : Bool) (rows : List ObsRow) : List ObsRow :=
  if hasCol then
    rows.filter (fun r =>
      match r.noggrannhet with
      | some v => decide (v ≤ 50)
      | none => false)
  else rows

/-- Line 86: `df = df.dropna(subset=['Ost', 'Nord'])`. -/
def dropMissingCoords (rows : List ObsRow) : List ObsRow :=
  rows.filter (fun r => r.ost.isSome && r.nord.isSome)

/-- The per-file cleaning of `load_observations` (lines 72-86): numeric
coercion (already reflected in the row type), accuracy mask, coordinate
dropna, in source order. -/
def clean_observation_rows (hasCol : Bool) (rows : List ObsRow) : List ObsRow :=
  dropMissingCoords (noggrannhetFilter hasCol rows)

/-- Outcome of an attempted cache write (`to_parquet`): `writeOk` says
whether the underlying I/O succeeds. -/
def tryWrite (writeOk : Bool) : Except String Unit :=
  if writeOk then Except.ok () else Except.error "IOError: could not write cache"

/-- Embedding of `load_observations` (lines 41-108).  `cacheExists` and
`cached` model the parquet cache; `files` lists the Excel inputs, each as
(has `Noggrannhet` column, coerced rows); `writeOk` is the cache-write
outcome.  The write sits in `try/except` (lines 102-106), so its failure
only prints a warning and the in-memory frame is returned either way;
an empty input set is `sys.exit()` (line 60). -/
def load_observations (cacheExists : Bool) (cached : List ObsRow)
    (files : List (Bool × List ObsRow)) (writeOk : Bool) :
    Except String (List ObsRow) :=
  if cacheExists then Except.ok cached
  else if files.isEmpty then Except.error "SystemExit"
  else
    let combined := concatMap (fun fl => clean_observation_rows fl.1 fl.2) files
    match tryWrite writeOk with
    | Except.ok _ => Except.ok combined
    | Except.error _ => Except.ok combined

/-- One polygon row of a logging layer: the raw date cell (`Avvdatum` /
`Inkomdatum`) as an opaque integer code and a polygon identity. -/
structure LayerRow where
  datum : Int
  geomId : Nat
deriving DecidableEq, Repr

/-- Lines 141-149 of `load_filtered_logging`: when the layer's date column
is present, `pd.to_datetime(..., errors='coerce')` (embedded as the
`parse` parameter returning the year, `none` for unparseable cells) is
applied and only rows whose year is at least `startYear` are kept; a
missing year fails the `>=` comparison and the row is dropped without
any exception. -/
def year_filter (parse : Int → Option Int) (startYear : Int) (hasDateCol : Bool)
    (rows : List LayerRow) : List LayerRow :=
  if hasDateCol then
    rows.filter (fun r =>
      match parse r.datum with
      | some y => decide (startYear ≤ y)
      | none => false)
  else rows

/-- Per-layer body of the loop in `load_filtered_logging` (lines 125-155).
When the cache exists the frame is read from it (line 131) and NOT
re-read with the bbox; otherwise the source is read bbox-filtered
(line 135).  The year filter (lines 141-149) is applied in both cases,
because it sits outside the cache branch.  The cache write (lines
152-153) runs only when no cache existed and is NOT wrapped in
`try/except`, so its failure propagates. -/
def load_filtered_logging_layer (cacheExists : Bool) (cached : List LayerRow)
    (source : List LayerRow) (bboxPred : LayerRow → Bool)
    (parse : Int → Option Int) (startYear : Int) (hasDateCol : Bool)
    (writeOk : Bool) : Except String (List LayerRow) :=
  let gdf := if cacheExists then cached else source.filter bboxPred
  let filtered := year_filter parse startYear hasDateCol gdf
  if cacheExists then Except.ok filtered
  else
    match tryWrite writeOk with
    | Except.ok _ => Except.ok filtered
    | Except.error e => Except.error e

/-- Distinct values of a list of indices in first-occurrence order, as
`pandas.Series.unique` returns them; `seen` accumulates values kept. -/
def uniqueNatsFrom : List Nat → List Nat → List Nat
  | _, [] => []
  | seen, a :: as =>
      if a ∈ seen then uniqueNatsFrom seen as
      else a :: uniqueNatsFrom (a :: seen) as

/-- Distinct values in first-occurrence order. -/
def uniqueNats (l : List Nat) : List Nat :=
  uniqueNatsFrom [] l

/-- Lines 263 and 274-275 of `describe_and_save`:
`all_affected_areas = res_df['index_right'].unique()` and
`andel_omraden = (len(all_affected_areas) / total_relevant) * 100`.
Python's division raises `ZeroDivisionError` when `total_relevant` is 0;
there is no guard in the source, so that case is an error value here. -/
def andel_omraden (ms : List MatchRec) (totalRelevant : Nat) :
    Except String Rat :=
  let allAffected := uniqueNats (ms.map MatchRec.polyIdx)
  if totalRelevant = 0 then Except.error "ZeroDivisionError: division by zero"
  else Except.ok ((allAffected.length : Rat) / (totalRelevant : Rat) * 100)

/-- Embedding of `min` over the coerced `Startdatum` series: `NaT` values
(unparseable dates) are skipped, and an all-missing or empty series has
no minimum. -/
def min_option : List Int → Option Int
  | [] => none
  | a :: as =>
      match min_option as with
      | none => some a
      | some b => some (min a b)

/-- Lines 301-302 of `__main__`:
`start_year = int(pd.to_datetime(gdf_obs['Startdatum'], errors='coerce').min().year)`.
On an empty observation collection the series minimum is `NaT`, whose
`year` field is `nan`, and `int(nan)` raises `ValueError`; that is the
error case here. -/
def start_year_of (parse : Int → Option Int) (obs : List ObsRow) :
    Except String Int :=
  match min_option ((obs.map ObsRow.startdatum).filterMap parse) with
  | some y => Except.ok y
  | none => Except.error "ValueError: cannot convert NaN to integer"

/-- Positional row indices of the observation frame. -/
def obsIndices (obs : List ObsRow) : List Nat :=
  List.range obs.length

/-- The `__main__` pipeline from line 301 onwards, for one logging layer:
compute the start year from the observation dates, load the (possibly
cached) logging layer filtered by it, and run the spatial analysis.
Either failure short-circuits the run before any `LayerResult` exists. -/
def main_pipeline (parse : Int → Option Int) (obs : List ObsRow)
    (cacheExists : Bool) (cachedL sourceL : List LayerRow)
    (bboxPred : LayerRow → Bool) (hasDateCol wk : Bool)
    (touchesStudy : Nat → Bool) (w b : Nat → Nat → Bool) :
    Except String (List MatchRec × Nat) :=
  match start_year_of parse obs with
  | Except.error e => Except.error e
  | Except.ok y =>
      match load_filtered_logging_layer cacheExists cachedL sourceL bboxPred
          parse y hasDateCol wk with
      | Except.error e => Except.error e
      | Except.ok layerRows =>
          Except.ok (run_spatial_analysis_layer (obsIndices obs)
            (layerRows.map LayerRow.geomId) touchesStudy w b)

/-- Geometry values as the matcher manipulates them: observation points
and buffered discs (`geometry.buffer(d)`). -/
inductive Geom where
  | point : Int → Int → Geom
  | buffer : Geom → Int → Geom
deriving DecidableEq, Repr

/-- One stored GeoDataFrame row: attribute columns (opaque integer codes)
plus the geometry column. -/
structure GeoRow where
  attrs : List Int
  geom : Geom
deriving DecidableEq, Repr

/-- A heap of live DataFrames, indexed by identity: Python variables hold
references into it, so mutation through one alias is visible through the
others.  `next` is the first unused identity. -/
structure PyHeap where
  mem : Nat → List GeoRow
  next : Nat

/-- Embedding of `gdf.copy()`: allocate a fresh identity holding the same
rows; the original identity is untouched. -/
def df_copy (h : PyHeap) (src : Nat) : PyHeap × Nat :=
  (⟨fun i => if i = h.next then h.mem src else h.mem i, h.next + 1⟩, h.next)

/-- Embedding of `gdf['geometry'] = gdf.geometry.buffer(d)`: an in-place
update of the geometry column of the frame at identity `i`. -/
def df_set_geometry_buffer (h : PyHeap) (i : Nat) (d : Int) : PyHeap :=
  ⟨fun j =>
      if j = i then (h.mem i).map (fun r => ⟨r.attrs, Geom.buffer r.geom d⟩)
      else h.mem j,
    h.next⟩

/-- Lines 178-179 of `run_spatial_analysis`:
`gdf_obs_buffered = gdf_obs.copy()` followed by
`gdf_obs_buffered['geometry'] = gdf_obs_buffered.geometry.buffer(50)`.
Returns the heap after the two statements and the identity of the
buffered frame. -/
def run_spatial_analysis_buffer_step (h : PyHeap) (obsId : Nat) : PyHeap × Nat :=
  let c := df_copy h obsId
  (df_set_geometry_buffer c.1 c.2 50, c.2)

/-- Membership in a concatenated image. -/
theorem mem_concatMap (f : α → List β) (y : β) (l : List α) :
    y ∈ concatMap f l ↔ ∃ a, a ∈ l ∧ y ∈ f a := by
  induction l with
  | nil => simp [concatMap]
  | cons a as ih => simp [concatMap, List.mem_append, ih, or_and_right, exists_or]

/-- A pair is produced by the embedded spatial join exactly when both rows
occur in their frames and the predicate holds. -/
theorem sjoin_mem (obs polys : List Nat) (pred : Nat → Nat → Bool) (o p : Nat) :
    (o, p) ∈ sjoin obs polys pred ↔ o ∈ obs ∧ p ∈ polys ∧ pred o p = true := by
  simp only [sjoin, mem_concatMap, List.mem_map, List.mem_filter]
  constructor
  · rintro ⟨a, ha, q, ⟨hq, hpred⟩, heq⟩
    obtain ⟨rfl, rfl⟩ : a = o ∧ q = p := by
      constructor <;> [exact congrArg Prod.fst heq; exact congrArg Prod.snd heq]
    exact ⟨ha, hq, hpred⟩
  · rintro ⟨ho, hp, hpred⟩
    exact ⟨o, ho, p, ⟨hp, hpred⟩, rfl⟩

/-- Characterisation of rows of the `within` join. -/
theorem mem_in_zone_iff (obs polys : List Nat) (w : Nat → Nat → Bool)
    (r : MatchRec) :
    r ∈ in_zone obs polys w ↔
      r.status = Status.Inuti ∧ r.obsIdx ∈ obs ∧ r.polyIdx ∈ polys ∧
        w r.obsIdx r.polyIdx = true := by
  unfold in_zone
  constructor
  · intro hr
    rcases List.mem_map.mp hr with ⟨pr, hpr, htag⟩
    have hpr' : (pr.1, pr.2) ∈ sjoin obs polys w := by
      simpa using hpr
    rcases (sjoin_mem obs polys w pr.1 pr.2).mp hpr' with ⟨ho, hp, hw⟩
    cases htag
    exact ⟨rfl, ho, hp, hw⟩
  · rintro ⟨hs, ho, hp, hw⟩
    refine List.mem_map.mpr ⟨(r.obsIdx, r.polyIdx),
      (sjoin_mem obs polys w r.obsIdx r.polyIdx).mpr ⟨ho, hp, hw⟩, ?_⟩
    cases r with
    | mk a b s => cases hs; rfl

/-- Characterisation of rows of the buffered `intersects` join. -/
theorem mem_all_near_iff (obs polys : List Nat) (b : Nat → Nat → Bool)
    (r : MatchRec) :
    r ∈ all_near obs polys b ↔
      r.status = Status.Nara ∧ r.obsIdx ∈ obs ∧ r.polyIdx ∈ polys ∧
        b r.obsIdx r.polyIdx = true := by
  unfold all_near
  constructor
  · intro hr
    rcases List.mem_map.mp hr with ⟨pr, hpr, htag⟩
    have hpr' : (pr.1, pr.2) ∈ sjoin obs polys b := by
      simpa using hpr
    rcases (sjoin_mem obs polys b pr.1 pr.2).mp hpr' with ⟨ho, hp, hb⟩
    cases htag
    exact ⟨rfl, ho, hp, hb⟩
  · rintro ⟨hs, ho, hp, hb⟩
    refine List.mem_map.mpr ⟨(r.obsIdx, r.polyIdx),
      (sjoin_mem obs polys b r.obsIdx r.polyIdx).mpr ⟨ho, hp, hb⟩, ?_⟩
    cases r with
    | mk a b s => cases hs; rfl

/-- The deduplicated list, restricted to one observation index, is the
first surviving row with that index of the input (none if the index was
already seen). -/
theorem dedupByObsAux_filter (o : Nat) :
    ∀ (l : List MatchRec) (seen : List Nat),
      (dedupByObsAux seen l).filter (fun r => r.obsIdx == o)
        = if o ∈ seen then []
          else (l.filter (fun r => r.obsIdx == o)).take 1
  | [], seen => by
      simp only [dedupByObsAux, List.filter_nil, List.take_nil]
      split <;> rfl
  | r :: rs, seen => by
      by_cases hmem : r.obsIdx ∈ seen
      · rw [dedupByObsAux, if_pos hmem, dedupByObsAux_filter o rs seen]
        by_cases ho : o ∈ seen
        · simp [ho]
        · have hro : ¬ (r.obsIdx == o) = true := by
            simp only [beq_iff_eq]
            intro h
            exact ho (h ▸ hmem)
          simp [ho, List.filter_cons, hro]
      · rw [dedupByObsAux, if_neg hmem]
        by_cases hro : r.obsIdx = o
        · have hP : (r.obsIdx == o) = true := beq_iff_eq.mpr hro
          have ho : o ∉ seen := fun h => hmem (hro ▸ h)
          rw [List.filter_cons, if_pos hP,
            dedupByObsAux_filter o rs (r.obsIdx :: seen),
            if_pos (by simp [hro])]
          simp [ho, List.filter_cons, hP]
        · have hPf : (r.obsIdx == o) = false := by
            simp [beq_iff_eq]; exact hro
          have hstep := dedupByObsAux_filter o rs (r.obsIdx :: seen)
          by_cases ho : o ∈ seen
          · have hin : o ∈ r.obsIdx :: seen := List.mem_cons_of_mem _ ho
            simp [List.filter_cons, hPf, hstep, hin, ho]
          · have hnotin : o ∉ r.obsIdx :: seen := by
              intro hc
              rcases List.mem_cons.mp hc with h | h
              · exact hro h.symm
              · exact ho h
            simp [List.filter_cons, hPf, hstep, hnotin, ho]

/-- The deduplicated list has pairwise distinct observation indices, none
of which was in the seen accumulator. -/
theorem dedupByObsAux_nodup :
    ∀ (l : List MatchRec) (seen : List Nat),
      ((dedupByObsAux seen l).map MatchRec.obsIdx).Nodup ∧
        ∀ r ∈ dedupByObsAux seen l, r.obsIdx ∉ seen
  | [], seen => by simp [dedupByObsAux]
  | r :: rs, seen => by
      by_cases hmem : r.obsIdx ∈ seen
      · rw [dedupByObsAux, if_pos hmem]
        exact dedupByObsAux_nodup rs seen
      · rw [dedupByObsAux, if_neg hmem]
        obtain ⟨ihnd, ihseen⟩ := dedupByObsAux_nodup rs (r.obsIdx :: seen)
        refine ⟨?_, ?_⟩
        · rw [List.map_cons, List.nodup_cons]
          refine ⟨?_, ihnd⟩
          intro hcontra
          rcases List.mem_map.mp hcontra with ⟨r', hr', heq⟩
          exact (ihseen r' hr') (heq ▸ List.mem_cons_self _ _)
        · intro r' hr'
          rcases List.mem_cons.mp hr' with h | h
          · exact h ▸ hmem
          · exact fun hs => (ihseen r' h) (List.mem_cons_of_mem _ hs)

/-- Deduplication only removes rows. -/
theorem dedupByObsAux_subset :
    ∀ (l : List MatchRec) (seen : List Nat) (r : MatchRec),
      r ∈ dedupByObsAux seen l → r ∈ l
  | [], _, _ => fun h => by simp [dedupByObsAux] at h
  | x :: rs, seen, r => by
      by_cases hmem : x.obsIdx ∈ seen
      · rw [dedupByObsAux, if_pos hmem]
        exact fun h => List.mem_cons_of_mem _ (dedupByObsAux_subset rs seen r h)
      · rw [dedupByObsAux, if_neg hmem]
        intro h
        rcases List.mem_cons.mp h with h | h
        · exact h ▸ List.mem_cons_self _ _
        · exact List.mem_cons_of_mem _
            (dedupByObsAux_subset rs (x.obsIdx :: seen) r h)

/-- The merged match list, restricted to one observation index, is the
first row with that index of the concatenated joins. -/
theorem merge_matches_filter (obs polys : List Nat) (w b : Nat → Nat → Bool)
    (o : Nat) :
    (merge_matches obs polys w b).filter (fun r => r.obsIdx == o)
      = ((in_zone obs polys w ++ all_near obs polys b).filter
          (fun r => r.obsIdx == o)).take 1 := by
  unfold merge_matches dedupByObs
  rw [dedupByObsAux_filter]
  simp

/-- Every merged row comes from one of the two joins. -/
theorem mem_merge_matches_sub (obs polys : List Nat) (w b : Nat → Nat → Bool)
    (r : MatchRec) (hr : r ∈ merge_matches obs polys w b) :
    r ∈ in_zone obs polys w ++ all_near obs polys b :=
  dedupByObsAux_subset _ _ _ hr

/-- If a merged row's observation lies within any polygon of the layer,
the surviving row for that observation is an `Inuti` row: the `within`
join contributes a row for it and `in_zone` precedes `all_near` in the
concatenation, so first-seen-wins keeps an `Inuti` row. -/
theorem merge_inside_of_within_any (obs polys : List Nat) (w b : Nat → Nat → Bool)
    (r : MatchRec) (hr : r ∈ merge_matches obs polys w b)
    (ho : r.obsIdx ∈ obs) (hp : ∃ p, p ∈ polys ∧ w r.obsIdx p = true) :
    r.status = Status.Inuti := by
  obtain ⟨p, hpmem, hpw⟩ := hp
  have hz : (⟨r.obsIdx, p, Status.Inuti⟩ : MatchRec) ∈ in_zone obs polys w :=
    (mem_in_zone_iff obs polys w _).mpr ⟨rfl, ho, hpmem, hpw⟩
  have hrf : r ∈ (merge_matches obs polys w b).filter
      (fun x => x.obsIdx == r.obsIdx) :=
    List.mem_filter.mpr ⟨hr, by simp⟩
  rw [merge_matches_filter, List.filter_append] at hrf
  have hzf : (⟨r.obsIdx, p, Status.Inuti⟩ : MatchRec)
      ∈ (in_zone obs polys w).filter (fun x => x.obsIdx == r.obsIdx) :=
    List.mem_filter.mpr ⟨hz, by simp⟩
  cases hfz : (in_zone obs polys w).filter (fun x => x.obsIdx == r.obsIdx) with
  | nil => rw [hfz] at hzf; cases hzf
  | cons x xs =>
      rw [hfz, List.cons_append, List.take_succ_cons, List.take_zero] at hrf
      have hrx : r = x := by
        rcases List.mem_singleton.mp hrf with h
        exact h
      have hxz : x ∈ in_zone obs polys w := by
        have : x ∈ (in_zone obs polys w).filter (fun y => y.obsIdx == r.obsIdx) := by
          rw [hfz]; exact List.mem_cons_self _ _
        exact List.mem_of_mem_filter this
      rw [hrx]
      exact ((mem_in_zone_iff obs polys w x).mp hxz).1

/-- C1: in the merge step of `run_spatial_analysis` (lines 196-198) the
merged list has pairwise distinct observation indices — hence at most one
`MatchRec` per (observation, polygon) pair and at most one surviving
pairing per observation, even when it matched several polygons;
restricted to any observation index the merged list is exactly the first
row of `in_zone ++ all_near` with that index (first-seen-wins, `Inuti`
rows ordered first); and whenever an observation lies within some
relevant polygon its surviving row is tagged `Inuti`. -/
theorem run_spatial_analysis_merge_dedup (obs polys : List Nat)
    (touchesStudy : Nat → Bool) (w b : Nat → Nat → Bool) :
    (((run_spatial_analysis_layer obs polys touchesStudy w b).1.map
        MatchRec.obsIdx).Nodup) ∧
    (∀ o : Nat,
      (run_spatial_analysis_layer obs polys touchesStudy w b).1.filter
          (fun r => r.obsIdx == o)
        = ((in_zone obs (polys.filter touchesStudy) w
            ++ all_near obs (polys.filter touchesStudy) b).filter
              (fun r => r.obsIdx == o)).take 1) ∧
    (∀ r ∈ (run_spatial_analysis_layer obs polys touchesStudy w b).1,
      (∃ p, p ∈ polys.filter touchesStudy ∧ w r.obsIdx p = true) →
        r.status = Status.Inuti) := by
  have hrun : (run_spatial_analysis_layer obs polys touchesStudy w b).1
      = merge_matches obs (polys.filter touchesStudy) w b := rfl
  refine ⟨?_, ?_, ?_⟩
  · rw [hrun]
    exact (dedupByObsAux_nodup _ []).1
  · intro o
    rw [hrun]
    exact merge_matches_filter obs (polys.filter touchesStudy) w b o
  · intro r hr hp
    rw [hrun] at hr
    have hcomb := mem_merge_matches_sub obs (polys.filter touchesStudy) w b r hr
    have ho : r.obsIdx ∈ obs := by
      rcases List.mem_append.mp hcomb with h | h
      · exact ((mem_in_zone_iff _ _ _ _).mp h).2.1
      · exact ((mem_all_near_iff _ _ _ _).mp h).2.1
    exact merge_inside_of_within_any obs (polys.filter touchesStudy) w b r hr ho hp

/-- Witness for C1 at a concrete input: one observation inside one
relevant polygon. -/
theorem run_spatial_analysis_merge_dedup_witness :
    (((run_spatial_analysis_layer [0] [0] (fun _ => true) (fun _ _ => true)
        (fun _ _ => true)).1.map MatchRec.obsIdx).Nodup) ∧
    MatchRec.status ⟨0, 0, Status.Inuti⟩ = Status.Inuti := by
  have h := run_spatial_analysis_merge_dedup [0] [0] (fun _ => true)
    (fun _ _ => true) (fun _ _ => true)
  have hm : (⟨0, 0, Status.Inuti⟩ : MatchRec)
      ∈ (run_spatial_analysis_layer [0] [0] (fun _ => true) (fun _ _ => true)
          (fun _ _ => true)).1 := by decide
  exact ⟨h.1, h.2.2 _ hm ⟨0, by decide, rfl⟩⟩

/-- C5: in the merged list of `run_spatial_analysis`, a row whose raw
observation point lies within its matched polygon is tagged `Inuti`, and
a row is tagged `Nara` only when the buffered disc intersects the matched
polygon while the raw point does not lie within it. -/
theorem run_spatial_analysis_status_semantics (obs polys : List Nat)
    (touchesStudy : Nat → Bool) (w b : Nat → Nat → Bool) :
    ∀ r ∈ (run_spatial_analysis_layer obs polys touchesStudy w b).1,
      (w r.obsIdx r.polyIdx = true → r.status = Status.Inuti) ∧
      (r.status = Status.Nara →
        b r.obsIdx r.polyIdx = true ∧ w r.obsIdx r.polyIdx = false) := by
  intro r hr
  have hrun : (run_spatial_analysis_layer obs polys touchesStudy w b).1
      = merge_matches obs (polys.filter touchesStudy) w b := rfl
  rw [hrun] at hr
  have hcomb := mem_merge_matches_sub obs (polys.filter touchesStudy) w b r hr
  have ho : r.obsIdx ∈ obs := by
    rcases List.mem_append.mp hcomb with h | h
    · exact ((mem_in_zone_iff _ _ _ _).mp h).2.1
    · exact ((mem_all_near_iff _ _ _ _).mp h).2.1
  have hpoly : r.polyIdx ∈ polys.filter touchesStudy := by
    rcases List.mem_append.mp hcomb with h | h
    · exact ((mem_in_zone_iff _ _ _ _).mp h).2.2.1
    · exact ((mem_all_near_iff _ _ _ _).mp h).2.2.1
  have hinside : w r.obsIdx r.polyIdx = true → r.status = Status.Inuti :=
    fun hw => merge_inside_of_within_any obs (polys.filter touchesStudy) w b r hr
      ho ⟨r.polyIdx, hpoly, hw⟩
  refine ⟨hinside, ?_⟩
  intro hN
  have hnearmem : r ∈ all_near obs (polys.filter touchesStudy) b := by
    rcases List.mem_append.mp hcomb with h | h
    · have := ((mem_in_zone_iff _ _ _ _).mp h).1
      rw [this] at hN
      cases hN
    · exact h
  refine ⟨((mem_all_near_iff _ _ _ _).mp hnearmem).2.2.2, ?_⟩
  cases hwv : w r.obsIdx r.polyIdx with
  | false => rfl
  | true =>
      have := hinside hwv
      rw [this] at hN
      cases hN

/-- Witness for C5 at a concrete input: one observation near (but not
within) one relevant polygon survives as `Nara` with the buffered
predicate true and the within predicate false. -/
theorem run_spatial_analysis_status_semantics_witness :
    MatchRec.status ⟨0, 0, Status.Nara⟩ = Status.Nara ∧
    (fun _ _ => true : Nat → Nat → Bool) 0 0 = true ∧
    (fun _ _ => false : Nat → Nat → Bool) 0 0 = false := by
  have h := run_spatial_analysis_status_semantics [0] [0] (fun _ => true)
    (fun _ _ => false) (fun _ _ => true)
  have hm : (⟨0, 0, Status.Nara⟩ : MatchRec)
      ∈ (run_spatial_analysis_layer [0] [0] (fun _ => true) (fun _ _ => false)
          (fun _ _ => true)).1 := by decide
  rcases (h _ hm).2 rfl with ⟨hb, hw⟩
  exact ⟨rfl, hb, hw⟩

/-- Under the geometric fact that a point within a polygon also has its
buffered disc intersect it, the `within` join is a sublist of the
buffered `intersects` join. -/
theorem sjoin_sublist (obs polys : List Nat) (w b : Nat → Nat → Bool)
    (h : ∀ o p, w o p = true → b o p = true) :
    List.Sublist (sjoin obs polys w) (sjoin obs polys b) := by
  induction obs with
  | nil => exact List.Sublist.refl _
  | cons o os ih =>
      exact ((List.monotone_filter_right polys (fun p hp => h o p hp)).map
        (fun p => (o, p))).append ih

/-- C6: given that `within` implies buffered `intersects` (shapely
geometry: the 50 m disc around a point contains the point), every
pre-merge `in_zone` pair also occurs as an `all_near` pair, and the
pre-merge `in_zone` row count is at most the `all_near` row count. -/
theorem inside_pairs_subset_near_pairs (obs polys : List Nat)
    (w b : Nat → Nat → Bool)
    (hgeom : ∀ o p, w o p = true → b o p = true) :
    (∀ r ∈ in_zone obs polys w,
      (⟨r.obsIdx, r.polyIdx, Status.Nara⟩ : MatchRec) ∈ all_near obs polys b) ∧
    (in_zone obs polys w).length ≤ (all_near obs polys b).length := by
  constructor
  · intro r hr
    rcases (mem_in_zone_iff obs polys w r).mp hr with ⟨_, ho, hp, hw⟩
    exact (mem_all_near_iff obs polys b _).mpr ⟨rfl, ho, hp, hgeom _ _ hw⟩
  · unfold in_zone all_near
    rw [List.length_map, List.length_map]
    exact (sjoin_sublist obs polys w b hgeom).length_le

/-- Witness for C6 at a concrete input: two observations, one polygon,
`within` holding only for the first, buffered intersection for both. -/
theorem inside_pairs_subset_near_pairs_witness :
    (in_zone [0, 1] [0] (fun o p => o == p)).length
      ≤ (all_near [0, 1] [0] (fun _ _ => true)).length := by
  have h := inside_pairs_subset_near_pairs [0, 1] [0] (fun o p => o == p)
    (fun _ _ => true) (fun _ _ _ => rfl)
  exact h.2

/-- A raw row whose accuracy cell is missing but whose coordinates parsed. -/
def obsRowMissingAcc : ObsRow :=
  ⟨some 1, some 2, none, none, 0, 0⟩

/-- A raw row with accuracy 10 and both coordinates present. -/
def obsRowGood : ObsRow :=
  ⟨some 1, some 2, some 10, none, 0, 0⟩

/-- C2 counterexample: a row with missing accuracy and valid coordinates
is NOT retained — `NaN <= 50` is false in pandas, so the mask at line 79
drops it, and the loader returns the empty collection. -/
theorem load_observations_missing_accuracy_dropped :
    obsRowMissingAcc.noggrannhet = none ∧
    obsRowMissingAcc.ost.isSome = true ∧
    obsRowMissingAcc.nord.isSome = true ∧
    load_observations false [] [(true, [obsRowMissingAcc])] true
      = Except.ok [] :=
  ⟨rfl, rfl, rfl, rfl⟩

/-- C2 (amended): when the accuracy column is present the loader keeps a
row only if its accuracy value is present and at most 50 — rows with
missing accuracy are dropped together with over-threshold rows — and every
retained row has both coordinates present. -/
theorem clean_observation_rows_invariant (rows : List ObsRow) (r : ObsRow)
    (hr : r ∈ clean_observation_rows true rows) :
    (∃ v, r.noggrannhet = some v ∧ v ≤ 50) ∧
      r.ost.isSome = true ∧ r.nord.isSome = true := by
  unfold clean_observation_rows dropMissingCoords noggrannhetFilter at hr
  rw [if_pos rfl] at hr
  have h2 := (List.mem_filter.mp hr).2
  have h1 := List.mem_of_mem_filter hr
  have hacc := (List.mem_filter.mp h1).2
  refine ⟨?_, ?_, ?_⟩
  · cases hval : r.noggrannhet with
    | none => rw [hval] at hacc; cases hacc
    | some v =>
        rw [hval] at hacc
        exact ⟨v, rfl, of_decide_eq_true hacc⟩
  · exact (Bool.and_eq_true _ _ ▸ h2).1
  · exact (Bool.and_eq_true _ _ ▸ h2).2

/-- Witness for C2's amended theorem at a concrete retained row. -/
theorem clean_observation_rows_invariant_witness :
    (∃ v, obsRowGood.noggrannhet = some v ∧ v ≤ 50) ∧
      obsRowGood.ost.isSome = true ∧ obsRowGood.nord.isSome = true :=
  clean_observation_rows_invariant [obsRowGood] obsRowGood (by decide)

/-- C3: the percentage computation of `describe_and_save` (line 274) is
NOT guarded: with zero relevant polygons it evaluates `0 / 0` and raises
`ZeroDivisionError` instead of yielding 0; with a non-zero denominator it
is distinct affected polygons over the relevant count times 100 (two
matches against the same polygon count once, giving 50% of 2). -/
theorem andel_omraden_unguarded :
    andel_omraden [] 0 = Except.error "ZeroDivisionError: division by zero" ∧
    andel_omraden [⟨0, 0, Status.Inuti⟩, ⟨1, 0, Status.Nara⟩] 2
      = Except.ok 50 := by
  refine ⟨rfl, ?_⟩
  show Except.ok ((1 : Rat) / 2 * 100) = Except.ok 50
  norm_num

/-- A cached layer row predating the analysis start year. -/
def cachedOldRow : LayerRow :=
  ⟨1990, 0⟩

/-- C4 counterexample: with an existing cache the loader does NOT return
the cached collection as-is — the minimum-year filter at lines 141-149
sits outside the cache branch and removes a cached 1990 row when the
start year is 2000. -/
theorem load_filtered_logging_cache_refiltered :
    load_filtered_logging_layer true [cachedOldRow] [] (fun _ => true)
        (fun d => some d) 2000 true true = Except.ok [] ∧
    ([cachedOldRow] : List LayerRow) ≠ [] :=
  ⟨rfl, by decide⟩

/-- C4 (amended): with an existing cache the loader returns the cached
rows with the minimum-year filter re-applied (the bounding box is indeed
not re-applied, and the result does not depend on the write outcome), and
the year filter is idempotent, so running the loader twice over the same
unchanged cache yields identical polygon collections. -/
theorem load_filtered_logging_cache_behaviour (cached source : List LayerRow)
    (bboxPred : LayerRow → Bool) (parse : Int → Option Int) (y : Int)
    (hasDateCol wk wk2 : Bool) :
    load_filtered_logging_layer true cached source bboxPred parse y hasDateCol wk
      = Except.ok (year_filter parse y hasDateCol cached) ∧
    year_filter parse y hasDateCol (year_filter parse y hasDateCol cached)
      = year_filter parse y hasDateCol cached ∧
    load_filtered_logging_layer true cached source bboxPred parse y hasDateCol wk
      = load_filtered_logging_layer true cached source bboxPred parse y
          hasDateCol wk2 := by
  refine ⟨rfl, ?_, rfl⟩
  cases hasDateCol with
  | false => rfl
  | true => simp [year_filter, List.filter_filter]

/-- C7 counterexample: with no pre-existing layer cache and a failing
write, `load_filtered_logging` propagates the I/O error — line 153 is not
wrapped in `try/except` — so the cache-write failure terminates the run,
contrary to the claim that it is always non-fatal. -/
theorem layer_cache_write_failure_fatal :
    load_filtered_logging_layer false [] [⟨2020, 0⟩] (fun _ => true)
        (fun d => some d) 2000 true false
      = Except.error "IOError: could not write cache" :=
  rfl

/-- C7 (amended): failure to persist the observation cache is non-fatal —
`load_observations` returns the same in-memory collection whatever the
write outcome, and never an error once input files exist — but failure to
persist a layer cache (attempted exactly when no cache existed)
propagates as an error and terminates the run. -/
theorem cache_write_failure_asymmetry (cached : List ObsRow)
    (files : List (Bool × List ObsRow)) (hne : files.isEmpty = false)
    (cachedL source : List LayerRow) (bboxPred : LayerRow → Bool)
    (parse : Int → Option Int) (y : Int) (hasDateCol : Bool) :
    load_observations false cached files false
        = load_observations false cached files true ∧
    (∀ e, load_observations false cached files false ≠ Except.error e) ∧
    load_filtered_logging_layer false cachedL source bboxPred parse y
        hasDateCol false
      = Except.error "IOError: could not write cache" := by
  refine ⟨?_, ?_, rfl⟩
  · simp [load_observations, hne, tryWrite]
  · intro e
    simp [load_observations, hne, tryWrite]

/-- Witness for C7's amended theorem at concrete inputs. -/
theorem cache_write_failure_asymmetry_witness :
    load_observations false [] [(true, [])] false
        = load_observations false [] [(true, [])] true ∧
    load_observations false [] [(true, [])] false
        ≠ Except.error "IOError: could not write cache" ∧
    load_filtered_logging_layer false [] [] (fun _ => true) (fun d => some d)
        0 true false
      = Except.error "IOError: could not write cache" := by
  have h := cache_write_failure_asymmetry [] [(true, [])] rfl [] []
    (fun _ => true) (fun d => some d) 0 true
  exact ⟨h.1, h.2.1 _, h.2.2⟩

/-- C8: a layer row whose designated date cell fails to parse (coerced to
missing by `errors='coerce'`) is excluded by the year filter — the `>=`
comparison fails for missing values — and the cached-layer path always
returns `Except.ok` of the filtered rows: field-level parse failures never
surface as exceptions. -/
theorem year_filter_unparseable_silent (parse : Int → Option Int) (y : Int)
    (rows : List LayerRow) (r : LayerRow) (hbad : parse r.datum = none) :
    r ∉ year_filter parse y true rows ∧
    ∀ (cached source : List LayerRow) (bboxPred : LayerRow → Bool) (hc : Bool),
      load_filtered_logging_layer true cached source bboxPred parse y hc true
        = Except.ok (year_filter parse y hc cached) := by
  constructor
  · intro hmem
    unfold year_filter at hmem
    rw [if_pos rfl] at hmem
    have h2 := (List.mem_filter.mp hmem).2
    rw [hbad] at h2
    cases h2
  · intro cached source bboxPred hc
    rfl

/-- Witness for C8 at a concrete unparseable row. -/
theorem year_filter_unparseable_silent_witness :
    (⟨7, 0⟩ : LayerRow) ∉ year_filter (fun _ => none) 0 true [⟨7, 0⟩] ∧
    load_filtered_logging_layer true [⟨7, 0⟩] [] (fun _ => true)
        (fun _ => none) 0 true true
      = Except.ok (year_filter (fun _ => none) 0 true [⟨7, 0⟩]) := by
  have h := year_filter_unparseable_silent (fun _ => none) 0 [⟨7, 0⟩] ⟨7, 0⟩ rfl
  exact ⟨h.1, h.2 [⟨7, 0⟩] [] (fun _ => true) true⟩

/-- C9: with an empty observation collection the pipeline terminates with
an error while computing the start year — `int(...)` of the `year` of the
minimum of an empty coerced date series raises `ValueError` (line 302) —
so no study extent and no `LayerResult` is ever produced. -/
theorem empty_observations_fatal (parse : Int → Option Int)
    (cacheExists : Bool) (cachedL sourceL : List LayerRow)
    (bboxPred : LayerRow → Bool) (hasDateCol wk : Bool)
    (touchesStudy : Nat → Bool) (w b : Nat → Nat → Bool) :
    main_pipeline parse [] cacheExists cachedL sourceL bboxPred hasDateCol wk
        touchesStudy w b
      = Except.error "ValueError: cannot convert NaN to integer" :=
  rfl

/-- C10: `run_spatial_analysis` buffers a copy (`gdf_obs.copy()`, line
178), so after the copy-and-buffer step the frame at the original
identity still holds its original rows — attributes and geometry — while
the fresh identity holds the 50-unit buffered geometries. -/
theorem run_spatial_analysis_no_mutation (h : PyHeap) (obsId : Nat)
    (hlive : obsId < h.next) :
    ((run_spatial_analysis_buffer_step h obsId).1.mem obsId = h.mem obsId) ∧
    ((run_spatial_analysis_buffer_step h obsId).1.mem
        (run_spatial_analysis_buffer_step h obsId).2
      = (h.mem obsId).map (fun r => ⟨r.attrs, Geom.buffer r.geom 50⟩)) := by
  have hne : obsId ≠ h.next := Nat.ne_of_lt hlive
  constructor
  · simp [run_spatial_analysis_buffer_step, df_set_geometry_buffer, df_copy, hne]
  · simp [run_spatial_analysis_buffer_step, df_set_geometry_buffer, df_copy]

/-- A live one-frame heap for the C10 witness. -/
def exHeap : PyHeap :=
  ⟨fun _ => [⟨[3], Geom.point 1 2⟩], 1⟩

/-- Witness for C10 at a concrete heap. -/
theorem run_spatial_analysis_no_mutation_witness :
    0 < exHeap.next ∧
    (run_spatial_analysis_buffer_step exHeap 0).1.mem 0 = exHeap.mem 0 :=
  ⟨Nat.zero_lt_one, (run_spatial_analysis_no_mutation exHeap 0 Nat.zero_lt_one).1⟩
